import Mathlib

/-!
Verification development for the Fern-Wifi-Cracker tool-integration core.

The definitions below are a shallow embedding of the Python sources under
`Fern-Wifi-Cracker/core/`: `crunch_integration.py`, `cowpatty_integration.py`,
`wifite_integration.py`, `aircrack_tools.py`, `kali_dependency_manager.py` and
`macchanger_integration.py`.  Pure computations become Lean functions, the
per-controller mutable dictionaries become explicit association lists passed
through each operation, wall-clock seconds (`int(time.time())`) become a `Nat`
parameter, and spawning / signal side effects are recorded as explicit event
lists so that theorems can speak about them.
-/

/-! ## Shared data model

Job/attack/generation statuses.  The Python code stores these as the string
literals given in the comments of each constructor. -/

/-- Status values stored in the `status` field of the per-controller
dictionaries (`'running'`, `'completed'`, `'stopped'`, `'failed'`,
`'timed_out'`, `'active'`). -/
inductive JobStatus
  /-- Python string `'running'` -/
  | running
  /-- Python string `'completed'` -/
  | completed
  /-- Python string `'stopped'` -/
  | stopped
  /-- Python string `'failed'` -/
  | failed
  /-- Python string `'timed_out'` -/
  | timedOut
  deriving DecidableEq, Repr

/-- Fields of one entry of `active_generations` / `active_attacks` that the
lifecycle operations read or write.  Python stores these in a dict, so a field
may be absent (`dict.get` returns `None`): absent fields are `none` here.
Fields such as `process`, `output_file`, `ssid`, `strategy` are irrelevant to
every claim and are not modelled. -/
structure JobInfo where
  status : Option JobStatus
  progress : Option Nat
  lastUpdate : Option Nat
  startTime : Option Nat
  deriving DecidableEq, Repr

/-- Registries (`self.active_generations`, `self.active_attacks`) are dicts
keyed by the generated id; modelled as association lists in insertion order. -/
abbrev JobRegistry : Type := List (String × JobInfo)

/-- Dict lookup `d.get(k)` on a registry. -/
def JobRegistry.find : JobRegistry → String → Option JobInfo
  | [], _ => none
  | p :: rest, id => if p.1 == id then some p.2 else JobRegistry.find rest id

/-- Dict membership test `k in d`. -/
def JobRegistry.contains (reg : JobRegistry) (id : String) : Bool :=
  (reg.find id).isSome

/-- Dict update `d[k] = v` restricted to an existing key: replace the value
stored at `id`, leaving other entries and their order unchanged. -/
def JobRegistry.update (reg : JobRegistry) (id : String) (f : JobInfo → JobInfo) :
    JobRegistry :=
  reg.map (fun p => if p.1 == id then (p.1, f p.2) else p)

/-! ## Decimal rendering of integers

The id strings are Python f-strings interpolating `int(time.time())`.  The
decimal rendering of a natural number is embedded with an explicit fuel so it
is kernel-computable, and proved equal to `Nat.digits 10` so that Mathlib's
round-trip lemma `Nat.ofDigits_digits` yields injectivity. -/

/-- Little-endian base-10 digit list, fuelled recursion. -/
def decDigitsFuel : Nat → Nat → List Nat
  | 0, _ => []
  | fuel + 1, n => if n = 0 then [] else n % 10 :: decDigitsFuel fuel (n / 10)

/-- Little-endian base-10 digits of `n` (empty for `0`). -/
def decDigits (n : Nat) : List Nat := decDigitsFuel n n

/-- Decimal digit value to its ASCII character. -/
def digitChar (d : Nat) : Char := Char.ofNat (48 + d)

/-- ASCII digit character back to its value. -/
def charToDigit (c : Char) : Nat := c.toNat - 48

/-- String literal `"0"`. -/
def zeroStr : String := "0"

/-- Decimal rendering of a natural number, as Python `str(n)` produces it:
most-significant digit first, and `"0"` for zero. -/
def decimalString (n : Nat) : String :=
  if n = 0 then zeroStr else String.mk ((decDigits n).reverse.map digitChar)

/-! ## Job-id generation (C1)

`AdvancedCrunchController.start_smart_wordlist_generation` line 210:
`generation_id = f"crunch_{int(time.time())}"`.
`AdvancedCowpattyController.start_optimized_attack` line 218:
`attack_id = f"cowpatty_{ssid}_{int(time.time())}"`. -/

/-- String literal `"crunch_"`. -/
def crunchIdBase : String := "crunch_"

/-- String literal `"cowpatty_"`. -/
def cowpattyIdBase : String := "cowpatty_"

/-- String literal `"_"`. -/
def underscoreStr : String := "_"

/-- Id produced by the id-generation step of
`start_smart_wordlist_generation` when the clock reads second `t`. -/
def crunchGenerationId (t : Nat) : String :=
  crunchIdBase ++ decimalString t

/-- Id produced by the id-generation step of `start_optimized_attack` for
network `ssid` when the clock reads second `t`. -/
def cowpattyAttackId (ssid : String) (t : Nat) : String :=
  cowpattyIdBase ++ ssid ++ underscoreStr ++ decimalString t

/-- One invocation of a `start` call, as far as the id-generation step can
see: the whole-second clock reading at the moment of the call, plus a caller
tag distinguishing the two concurrent invocations (the Python code has no
access to any such tag; it is recorded only so that distinct concurrent calls
are distinct objects). -/
structure StartCall where
  callerTag : Nat
  timestampSec : Nat
  deriving DecidableEq, Repr

/-- The id the crunch id-generation step hands a given start call. -/
def StartCall.crunchId (c : StartCall) : String :=
  crunchGenerationId c.timestampSec

/-! ## Wordlist size estimation (C9)

`CrunchIntegration.estimate_wordlist_size` lines 178-184:
`total = 0; for length in range(min_length, max_length + 1): total += charset_size ** length; return total`. -/

/-- Shallow embedding of `CrunchIntegration.estimate_wordlist_size`: the
Python `for` loop over `range(min_length, max_length + 1)` accumulating
`charset_size ** length` into `total`.  `range(a, b)` enumerates
`a, a+1, ..., b-1` and is empty when `b ≤ a`, which is exactly
`List.range' a (b - a)`. -/
def estimate_wordlist_size (min_length max_length charset_size : Nat) : Nat :=
  (List.range' min_length (max_length + 1 - min_length)).foldl
    (fun total length => total + charset_size ^ length) 0

/-! ## Progress-line matching (C3)

`WifiteIntegration._parse_progress` and `CowpattyIntegration._parse_progress`
each apply `re.search` with a fixed, ordered family of patterns to one output
line and return a dict for the first pattern that matches, or `None`.

The patterns used by these two functions are built only from case-insensitive
literal characters, the classes `\d`, `\w`, `\s`, `[\w\s]`, `[^\s]` under a
greedy `+` (or `\s*`), and the optional literal `s?`.  In every pattern each
`+`/`*` class is immediately followed either by a literal character outside
the class or by the end of the pattern, so Python's greedy backtracking never
gives up characters: maximal munch computes exactly `re.search`'s match, and
the engine below implements that. -/

/-- Python regex `\d` (the lines are ASCII tool output). -/
def isDigitCh (c : Char) : Bool := c.isDigit

/-- Python regex `\w` restricted to ASCII: letters, digits and underscore. -/
def isWordCh (c : Char) : Bool := c.isAlphanum || c == '_'

/-- Python regex `\s`: ASCII whitespace. -/
def isSpaceCh (c : Char) : Bool :=
  c == ' ' || c == '\t' || c == '\n' || c == '\r' || c == '\x0b' || c == '\x0c'

/-- Python regex `[\w\s]`. -/
def isWordOrSpaceCh (c : Char) : Bool := isWordCh c || isSpaceCh c

/-- Python regex `[^\s]`. -/
def isNonSpaceCh (c : Char) : Bool := !isSpaceCh c

/-- One token of a pattern: a case-insensitive literal character, a greedy
one-or-more character class (captured when `cap` is true), a greedy
zero-or-more class (`\s*`, never captured in these patterns), or a greedy
optional literal (`s?`). -/
inductive RTok
  | lit (c : Char)
  | many1 (f : Char → Bool) (cap : Bool)
  | many0 (f : Char → Bool)
  | optLit (c : Char)

/-- Case-insensitive character comparison (`re.IGNORECASE`). -/
def chEqCI (a b : Char) : Bool := a.toLower == b.toLower

/-- Match a token list against the beginning of `s`, returning the list of
captured groups in order.  Greedy classes take the maximal run; `optLit`
backtracks (try consuming, else not), matching Python's greedy `?`. -/
def matchToks : List RTok → List Char → Option (List (List Char))
  | [], _ => some []
  | RTok.lit c :: ts, x :: xs => if chEqCI c x then matchToks ts xs else none
  | RTok.lit _ :: _, [] => none
  | RTok.many1 f cap :: ts, xs =>
      let run := xs.takeWhile f
      if run.isEmpty then none
      else (matchToks ts (xs.drop run.length)).map
        (fun caps => if cap then run :: caps else caps)
  | RTok.many0 f :: ts, xs => matchToks ts (xs.dropWhile f)
  | RTok.optLit c :: ts, x :: xs =>
      if chEqCI c x then
        match matchToks ts xs with
        | some caps => some caps
        | none => matchToks ts (x :: xs)
      else matchToks ts (x :: xs)
  | RTok.optLit _ :: ts, [] => matchToks ts []

/-- Try the pattern at each start position, left to right (`re.search`). -/
def searchFrom (ts : List RTok) : List Char → Option (List (List Char))
  | [] => matchToks ts []
  | x :: xs =>
      match matchToks ts (x :: xs) with
      | some caps => some caps
      | none => searchFrom ts xs

/-- Embedding of `re.search(pattern, line, re.IGNORECASE)`: the captured
groups of the leftmost match, or `none`. -/
def reSearch (ts : List RTok) (line : String) : Option (List String) :=
  (searchFrom ts line.data).map (List.map String.mk)

/-- Literal word as a token sequence. -/
def lits (s : String) : List RTok := s.data.map RTok.lit

/-- Value of `int(g)` for a captured all-digit group `g`. -/
def digitsToNat (s : String) : Nat :=
  s.data.foldl (fun n c => n * 10 + (c.toNat - 48)) 0

/-- First captured group (`match.group(1)`). -/
def group1 (gs : List String) : String := gs.getD 0 (String.mk [])

/-- Second captured group (`match.group(2)`). -/
def group2 (gs : List String) : String := gs.getD 1 (String.mk [])

/-- Third captured group (`match.group(3)`). -/
def group3 (gs : List String) : String := gs.getD 2 (String.mk [])

/-! Cowpatty patterns (`cowpatty_integration.py` lines 120-147). -/

/-- String literal `"key"`. -/
def wKey : String := "key"

/-- String literal `"found"`. -/
def wFound : String := "found"

/-- String literal `"passphrase"`. -/
def wPassphrase : String := "passphrase"

/-- String literal `"tested"`. -/
def wTested : String := "tested"

/-- Pattern `key\s*found\s*\[\s*(\d+)\s*\]` (searched with `re.IGNORECASE`). -/
def cowKeyPat : List RTok :=
  lits wKey ++ [RTok.many0 isSpaceCh] ++ lits wFound ++
    [RTok.many0 isSpaceCh, RTok.lit '[', RTok.many0 isSpaceCh,
     RTok.many1 isDigitCh true, RTok.many0 isSpaceCh, RTok.lit ']']

/-- Pattern `(\d+)%`. -/
def pctPat : List RTok := [RTok.many1 isDigitCh true, RTok.lit '%']

/-- Pattern `(\d+)\s+passphrases?\s+tested` (searched with `re.IGNORECASE`). -/
def cowTestedPat : List RTok :=
  [RTok.many1 isDigitCh true, RTok.many1 isSpaceCh false] ++
    lits wPassphrase ++ [RTok.optLit 's', RTok.many1 isSpaceCh false] ++
    lits wTested

/-- Discriminated union returned by `CowpattyIntegration._parse_progress`:
the dicts `{'type': 'key_found', 'key_index': _, 'status': 'success'}`,
`{'type': 'progress', 'percentage': _}` and
`{'type': 'passphrases_tested', 'count': _}`. -/
inductive CowEvent
  | keyFound (keyIndex : Nat)
  | progress (percentage : Nat)
  | passphrasesTested (count : Nat)
  deriving DecidableEq, Repr

/-- Shallow embedding of `CowpattyIntegration._parse_progress`: the three
`re.search` calls in source order, returning a dict for the first that
matches and `None` otherwise. -/
def cowpattyParseProgress (line : String) : Option CowEvent :=
  match reSearch cowKeyPat line with
  | some gs => some (CowEvent.keyFound (digitsToNat (group1 gs)))
  | none =>
    match reSearch pctPat line with
    | some gs => some (CowEvent.progress (digitsToNat (group1 gs)))
    | none =>
      match reSearch cowTestedPat line with
      | some gs => some (CowEvent.passphrasesTested (digitsToNat (group1 gs)))
      | none => none

/-- The monitor loop hands each line to the parser in order and forwards each
non-`None` result to the callback (`monitor_attack_progress`), so the event
sequence for a line sequence is the order-preserving `filterMap`. -/
def cowpattyEvents (lines : List String) : List CowEvent :=
  lines.filterMap cowpattyParseProgress

/-! Wifite patterns (`wifite_integration.py` lines 134-166).  The Python dict
literal `patterns` preserves insertion order, so `patterns.items()` is tried
in exactly the order written. -/

/-- String literal `"target"`. -/
def wTarget : String := "target"

/-- String literal `"attacking"`. -/
def wAttacking : String := "attacking"

/-- String literal `"on"`. -/
def wOn : String := "on"

/-- String literal `"channel"`. -/
def wChannel : String := "channel"

/-- String literal `"WPS PIN found:"`. -/
def wWpsPinFound : String := "WPS PIN found:"

/-- String literal `"WPA key found:"`. -/
def wWpaKeyFound : String := "WPA key found:"

/-- String literal `"WEP key found:"`. -/
def wWepKeyFound : String := "WEP key found:"

/-- String literal `"complete"`. -/
def wComplete : String := "complete"

/-- String literal `"attempts"`. -/
def wAttempts : String := "attempts"

/-- String literal `"remaining"`. -/
def wRemaining : String := "remaining"

/-- Pattern `\[\+\] (\d+) target\(s\) found`. -/
def wifTargetPat : List RTok :=
  [RTok.lit '[', RTok.lit '+', RTok.lit ']', RTok.lit ' ',
   RTok.many1 isDigitCh true, RTok.lit ' '] ++
    lits wTarget ++ [RTok.lit '(', RTok.lit 's', RTok.lit ')', RTok.lit ' '] ++
    lits wFound

/-- Pattern `\[\+\] attacking (\w+) on channel (\d+) \(([\w\s]+)\)`. -/
def wifAttackingPat : List RTok :=
  [RTok.lit '[', RTok.lit '+', RTok.lit ']', RTok.lit ' '] ++
    lits wAttacking ++ [RTok.lit ' ', RTok.many1 isWordCh true, RTok.lit ' '] ++
    lits wOn ++ [RTok.lit ' '] ++ lits wChannel ++
    [RTok.lit ' ', RTok.many1 isDigitCh true, RTok.lit ' ', RTok.lit '(',
     RTok.many1 isWordOrSpaceCh true, RTok.lit ')']

/-- Pattern `\[\+\] WPS PIN found: (\d+)`. -/
def wifWpsPinPat : List RTok :=
  [RTok.lit '[', RTok.lit '+', RTok.lit ']', RTok.lit ' '] ++
    lits wWpsPinFound ++ [RTok.lit ' ', RTok.many1 isDigitCh true]

/-- Pattern `\[\+\] WPA key found: ([^\s]+)`. -/
def wifWpaKeyPat : List RTok :=
  [RTok.lit '[', RTok.lit '+', RTok.lit ']', RTok.lit ' '] ++
    lits wWpaKeyFound ++ [RTok.lit ' ', RTok.many1 isNonSpaceCh true]

/-- Pattern `\[\+\] WEP key found: ([^\s]+)`. -/
def wifWepKeyPat : List RTok :=
  [RTok.lit '[', RTok.lit '+', RTok.lit ']', RTok.lit ' '] ++
    lits wWepKeyFound ++ [RTok.lit ' ', RTok.many1 isNonSpaceCh true]

/-- Pattern `(\d+)% complete`. -/
def wifProgressPat : List RTok :=
  [RTok.many1 isDigitCh true, RTok.lit '%', RTok.lit ' '] ++ lits wComplete

/-- Pattern `(\d+) attempts remaining`. -/
def wifAttemptsPat : List RTok :=
  [RTok.many1 isDigitCh true, RTok.lit ' '] ++ lits wAttempts ++
    [RTok.lit ' '] ++ lits wRemaining

/-- String literal `"wps_pin"` (the `key_type` value). -/
def ktWpsPin : String := "wps_pin"

/-- String literal `"wpa_key"` (the `key_type` value). -/
def ktWpaKey : String := "wpa_key"

/-- String literal `"wep_key"` (the `key_type` value). -/
def ktWepKey : String := "wep_key"

/-- Discriminated union returned by `WifiteIntegration._parse_progress`. -/
inductive WifiteEvent
  | targetsFound (count : Nat)
  | attacking (encryption : String) (channel : Nat) (bssid : String)
  | keyFound (keyType : String) (key : String)
  | progress (percentage : Nat)
  | attempts (remaining : Nat)
  deriving DecidableEq, Repr

/-- Shallow embedding of `WifiteIntegration._parse_progress`: the seven
patterns are tried in the dict's insertion order with `re.IGNORECASE`; the
first match yields its dict, otherwise the result is `None`. -/
def wifiteParseProgress (line : String) : Option WifiteEvent :=
  match reSearch wifTargetPat line with
  | some gs => some (WifiteEvent.targetsFound (digitsToNat (group1 gs)))
  | none =>
    match reSearch wifAttackingPat line with
    | some gs =>
      some (WifiteEvent.attacking (group1 gs) (digitsToNat (group2 gs)) (group3 gs))
    | none =>
      match reSearch wifWpsPinPat line with
      | some gs => some (WifiteEvent.keyFound ktWpsPin (group1 gs))
      | none =>
        match reSearch wifWpaKeyPat line with
        | some gs => some (WifiteEvent.keyFound ktWpaKey (group1 gs))
        | none =>
          match reSearch wifWepKeyPat line with
          | some gs => some (WifiteEvent.keyFound ktWepKey (group1 gs))
          | none =>
            match reSearch wifProgressPat line with
            | some gs => some (WifiteEvent.progress (digitsToNat (group1 gs)))
            | none =>
              match reSearch wifAttemptsPat line with
              | some gs => some (WifiteEvent.attempts (digitsToNat (group1 gs)))
              | none => none

/-- Event sequence produced by feeding a line sequence through the wifite
monitor loop (`monitor_attack_progress`). -/
def wifiteEvents (lines : List String) : List WifiteEvent :=
  lines.filterMap wifiteParseProgress

/-- Dict assignment `d[k] = v`: overwrite in place if the key exists,
otherwise append (Python dicts keep first-insertion order). -/
def JobRegistry.insert (reg : JobRegistry) (id : String) (info : JobInfo) :
    JobRegistry :=
  if reg.contains id then reg.update id (fun _ => info) else reg ++ [(id, info)]

/-! ## Crunch controller lifecycle (C2, C5)

`AdvancedCrunchController` of `crunch_integration.py`. -/

/-- Dicts handed to the crunch progress callback: the two outputs of
`CrunchIntegration._parse_progress` plus the monitor loop's final
`{'status': 'completed'}` dict. -/
inductive CrunchCbInfo
  /-- `{'status': 'completed'}` sent when the monitor loop sees the process exit -/
  | completedStatus
  /-- `{'type': 'progress', 'percentage': p}` -/
  | progressEvent (percentage : Nat)
  /-- `{'type': 'words_generated', 'count': c}` -/
  | wordsGenerated (count : Nat)
  deriving DecidableEq, Repr

/-- Shallow embedding of `AdvancedCrunchController._handle_progress`
(lines 276-285): when the id is registered, set `last_update` to the current
time, then set `status` to `'completed'` if the info dict carries
`status == 'completed'`, else record the percentage if it is a progress
event; any other info only refreshes `last_update`. -/
def crunch_handle_progress (reg : JobRegistry) (generation_id : String)
    (info : CrunchCbInfo) (now : Nat) : JobRegistry :=
  if reg.contains generation_id then
    reg.update generation_id (fun gi =>
      let gi := { gi with lastUpdate := some now }
      match info with
      | CrunchCbInfo.completedStatus => { gi with status := some JobStatus.completed }
      | CrunchCbInfo.progressEvent p => { gi with progress := some p }
      | CrunchCbInfo.wordsGenerated _ => gi)
  else reg

/-- Shallow embedding of `AdvancedCrunchController.stop_generation`
(lines 291-298): when the id is registered, ask the integration to stop the
current process; when that reports success, set `status` to `'stopped'`.
`stop_ok` is the boolean returned by `CrunchIntegration.stop_generation`.
Returns the new registry and the boolean result. -/
def crunch_stop_generation_ctl (reg : JobRegistry) (generation_id : String)
    (stop_ok : Bool) : JobRegistry × Bool :=
  if reg.contains generation_id then
    if stop_ok then
      (reg.update generation_id
        (fun gi => { gi with status := some JobStatus.stopped }), true)
    else (reg, false)
  else (reg, false)

/-! ## Registry sweeps (C4)

`cleanup_generations` (crunch, lines 300-311), `cleanup_attacks` (cowpatty,
lines 283-294) and `cleanup_completed_attacks` (wifite, lines 308-320).  Each
collects the ids whose `status` is in a hard-coded list and whose
`current_time - info.get('last_update', 0)` exceeds a hard-coded window, then
deletes them; this equals filtering the registry in place. -/

/-- Sweep of `AdvancedCrunchController.cleanup_generations`: removable
statuses `['completed', 'stopped']`, window `300` seconds. -/
def crunch_cleanup_generations (reg : JobRegistry) (now : Nat) : JobRegistry :=
  reg.filter (fun p =>
    !((p.2.status == some JobStatus.completed
        || p.2.status == some JobStatus.stopped)
      && decide (300 < now - p.2.lastUpdate.getD 0)))

/-- Sweep of `AdvancedCowpattyController.cleanup_attacks`: removable statuses
`['completed', 'stopped', 'failed']`, window `600` seconds. -/
def cowpatty_cleanup_attacks (reg : JobRegistry) (now : Nat) : JobRegistry :=
  reg.filter (fun p =>
    !((p.2.status == some JobStatus.completed
        || p.2.status == some JobStatus.stopped
        || p.2.status == some JobStatus.failed)
      && decide (600 < now - p.2.lastUpdate.getD 0)))

/-- Sweep of `WifiteController.cleanup_completed_attacks`: removable statuses
`['completed', 'stopped']`, window `300` seconds. -/
def wifite_cleanup_completed_attacks (reg : JobRegistry) (now : Nat) :
    JobRegistry :=
  reg.filter (fun p =>
    !((p.2.status == some JobStatus.completed
        || p.2.status == some JobStatus.stopped)
      && decide (300 < now - p.2.lastUpdate.getD 0)))

/-! ## Crunch command construction and start (C5, C8)

`CrunchIntegration.generate_wordlist` (lines 32-69) and
`AdvancedCrunchController.start_smart_wordlist_generation` (lines 207-244). -/

/-- String literal `"crunch"`. -/
def strCrunch : String := "crunch"

/-- String literal `"-o"`. -/
def flagO : String := "-o"

/-- String literal `"-t"`. -/
def flagT : String := "-t"

/-- String literal `"-c"`. -/
def flagC : String := "-c"

/-- String literal `"-d"`. -/
def flagD : String := "-d"

/-- String literal `"-i"`. -/
def flagI : String := "-i"

/-- String literal `"-l"`. -/
def flagL : String := "-l"

/-- String literal `"-p"`. -/
def flagP : String := "-p"

/-- Argument vector built by `CrunchIntegration.generate_wordlist`
(lines 39-59): `['crunch', str(min_length), str(max_length), charset, '-o',
output_file]` plus `-t pattern` when `pattern` is truthy (non-`None` and
non-empty), `-c count` when `count` is truthy (present and nonzero), and the
boolean flags. -/
def crunch_generate_cmd (min_length max_length : Nat)
    (charset output_file : String) (pattern : Option String)
    (count : Option Nat) (duplicate invert literal permute : Bool) :
    List String :=
  [strCrunch, decimalString min_length, decimalString max_length, charset,
    flagO, output_file]
    ++ (match pattern with
        | some p => if p.isEmpty then [] else [flagT, p]
        | none => [])
    ++ (match count with
        | some c => if c = 0 then [] else [flagC, decimalString c]
        | none => [])
    ++ (if duplicate then [flagD] else [])
    ++ (if invert then [flagI] else [])
    ++ (if literal then [flagL] else [])
    ++ (if permute then [flagP] else [])

/-- Raised by `CrunchIntegration.generate_wordlist` line 37:
`RuntimeError("Crunch not available")`. -/
inductive CrunchError
  | crunchNotAvailable
  deriving DecidableEq, Repr

/-- Raised by `start_smart_wordlist_generation` line 244:
`RuntimeError(f"Failed to start wordlist generation: {e}")`. -/
inductive StartError
  | failedToStart (inner : CrunchError)
  deriving DecidableEq, Repr

/-- Shallow embedding of `CrunchIntegration.generate_wordlist`: refuse with
`RuntimeError` when the construction-time probe result is `False`
(lines 36-37, before any command is built or spawned); otherwise build the
argument vector and spawn it, returning the spawned command. -/
def crunch_generate_wordlist (crunch_available : Bool)
    (min_length max_length : Nat) (charset output_file : String)
    (pattern : Option String) (count : Option Nat)
    (duplicate invert literal permute : Bool) :
    Except CrunchError (List String) :=
  if crunch_available then
    Except.ok (crunch_generate_cmd min_length max_length charset output_file
      pattern count duplicate invert literal permute)
  else Except.error CrunchError.crunchNotAvailable

/-- String literal `"abcdefghijklmnopqrstuvwxyz"`. -/
def lowercaseChars : String := "abcdefghijklmnopqrstuvwxyz"

/-- String literal `"ABCDEFGHIJKLMNOPQRSTUVWXYZ"`. -/
def uppercaseChars : String := "ABCDEFGHIJKLMNOPQRSTUVWXYZ"

/-- String literal `"0123456789"`. -/
def digitChars : String := "0123456789"

/-- The symbol charset of `generate_pattern_based_wordlist` line 117 (the
literal braces are written as escapes). -/
def symbolChars : String := "!@#$%^&*()-_+=~`[]\x7b\x7d|\\:;\"'<>,.?/"

/-- String literal `"abcdefghijklmnopqrstuvwxyz0123456789"`. -/
def lowerDigitsChars : String := "abcdefghijklmnopqrstuvwxyz0123456789"

/-- String literal `"ABCDEFGHIJKLMNOPQRSTUVWXYZ0123456789"`. -/
def upperDigitsChars : String := "ABCDEFGHIJKLMNOPQRSTUVWXYZ0123456789"

/-- String literal `"@@@@@@@@"` (the 8-lowercase pattern of
`_analyze_target`). -/
def atPattern8 : String := "@@@@@@@@"

/-- Charset assembled by `generate_pattern_based_wordlist` lines 109-117 from
the placeholder characters present in the pattern. -/
def charsetOfPattern (p : String) : String :=
  String.mk
    ((if p.data.contains '@' then lowercaseChars.data else [])
      ++ (if p.data.contains ',' then uppercaseChars.data else [])
      ++ (if p.data.contains '%' then digitChars.data else [])
      ++ (if p.data.contains '^' then symbolChars.data else []))

/-- Python regex `\d` (single occurrence, for `\d{8}`). -/
def oneDigitTok : RTok := RTok.many1 isDigitCh false

/-- Pattern `\d{8}` of `_analyze_target` line 252, as eight single-digit
classes; since a maximal digit run absorbs all eight, a `many1` run of length
at least 8 is equivalent, embedded here as: a digit run of length `≥ 8`
exists.  Implemented directly as the search for eight consecutive digits. -/
def eightDigitsPat : List RTok :=
  List.replicate 8 (RTok.many1 isDigitCh false)

/-- Result dicts of `AdvancedCrunchController._analyze_target`: either a
pattern strategy or a charset strategy (the `description` field is cosmetic
and not modelled). -/
inductive CrunchStrategy
  | patternStrategy (pattern : String)
  | charsetStrategy (min_length max_length : Nat) (charset : String)
  deriving DecidableEq, Repr

/-- Pattern `[A-Z]{3,}` of `_analyze_target` line 258 (no `IGNORECASE`):
three uppercase letters followed by any more. -/
def isUpperAZ (c : Char) : Bool := 'A' ≤ c && c ≤ 'Z'

/-- Shallow embedding of `_analyze_target` (lines 246-274).  `\d{8}` in the
ssid selects the 8-lowercase pattern strategy; else `[A-Z]{3,}` selects
uppercase-digits 8-12; else the default lowercase-digits 8-16. -/
def analyze_target (ssid : String) : CrunchStrategy :=
  if (reSearch eightDigitsPat ssid).isSome then
    CrunchStrategy.patternStrategy atPattern8
  else if (reSearch [RTok.many1 isUpperAZ false, RTok.many1 isUpperAZ false,
      RTok.many1 isUpperAZ false] ssid).isSome then
    CrunchStrategy.charsetStrategy 8 12 upperDigitsChars
  else
    CrunchStrategy.charsetStrategy 8 16 lowerDigitsChars

/-- Shallow embedding of
`AdvancedCrunchController.start_smart_wordlist_generation` (lines 207-244).
The id is generated first; inside the `try` the strategy chooses the
`generate_*` call, each of which raises before spawning when crunch is
unavailable; only after a successful spawn is the job registered with status
`'running'` and the id returned.  The result is the returned id or the
re-raised error, the final registry, and the list of spawned commands. -/
def start_smart_wordlist_generation (crunch_available : Bool) (ssid : String)
    (reg : JobRegistry) (output_file : String) (now : Nat) :
    Except StartError String × JobRegistry × List (List String) :=
  let generation_id := crunchGenerationId now
  let spawn : Except CrunchError (List String) :=
    match analyze_target ssid with
    | CrunchStrategy.patternStrategy p =>
        crunch_generate_wordlist crunch_available p.length p.length
          (charsetOfPattern p) output_file (some p) none false false false false
    | CrunchStrategy.charsetStrategy mn mx cs =>
        crunch_generate_wordlist crunch_available mn mx cs output_file
          none none false false false false
  match spawn with
  | Except.error e => (Except.error (StartError.failedToStart e), reg, [])
  | Except.ok cmd =>
      (Except.ok generation_id,
        reg.insert generation_id
          { status := some JobStatus.running, progress := none,
            lastUpdate := none, startTime := some now },
        [cmd])

/-! ## Process stop escalation (C6)

`CrunchIntegration.stop_generation` (lines 164-176) and
`WifiteIntegration.stop_attack` (lines 168-182) are textually identical:
with no owned process handle they return `False` without raising; with a
handle they send `terminate`, wait up to the 5-second grace period, and on
`TimeoutExpired` escalate to `kill`, returning `True` either way. -/

/-- Observable behaviour of the owned process when asked to terminate:
either it exits within the 5-second grace window, or it ignores the
terminate signal until the grace period expires. -/
inductive ProcBehavior
  | exitsInGrace
  | ignoresTerminate
  deriving DecidableEq, Repr

/-- Signals the stop sequence sends to the process. -/
inductive StopSignal
  | terminateSig
  | killSig
  deriving DecidableEq, Repr

/-- Shallow embedding of `CrunchIntegration.stop_generation`: result boolean
plus the ordered signals sent.  `none` models `self.current_process` being
`None`. -/
def crunch_stop_generation_proc (handle : Option ProcBehavior) :
    Bool × List StopSignal :=
  match handle with
  | none => (false, [])
  | some ProcBehavior.exitsInGrace => (true, [StopSignal.terminateSig])
  | some ProcBehavior.ignoresTerminate =>
      (true, [StopSignal.terminateSig, StopSignal.killSig])

/-- Shallow embedding of `WifiteIntegration.stop_attack` (same code shape as
`CrunchIntegration.stop_generation`). -/
def wifite_stop_attack_proc (handle : Option ProcBehavior) :
    Bool × List StopSignal :=
  match handle with
  | none => (false, [])
  | some ProcBehavior.exitsInGrace => (true, [StopSignal.terminateSig])
  | some ProcBehavior.ignoresTerminate =>
      (true, [StopSignal.terminateSig, StopSignal.killSig])

/-! ## Availability probes (C7)

`CrunchIntegration._check_crunch` (lines 23-30),
`CowpattyIntegration._check_cowpatty` (lines 24-31) and
`AircrackSuite._check_tools_availability` (lines 23-41).  Each wraps one
`subprocess.run([...], capture_output=True, timeout=5)` in a
`try/except (TimeoutExpired, FileNotFoundError)`. -/

/-- Outcome of invoking a tool binary with its help/version flag under the
5-second bound: the process exits with a code, the bound expires
(`TimeoutExpired`), or the executable does not exist (`FileNotFoundError`). -/
inductive RunOutcome
  | exited (code : Int)
  | timedOutRun
  | fileNotFound
  deriving DecidableEq, Repr

/-- Shallow embedding of `CrunchIntegration._check_crunch`: available iff
`crunch -h` exits with code 0; timeout and missing binary are caught and
reported as unavailable. -/
def check_crunch (outcome : RunOutcome) : Bool :=
  match outcome with
  | RunOutcome.exited code => code == 0
  | RunOutcome.timedOutRun => false
  | RunOutcome.fileNotFound => false

/-- Shallow embedding of `CowpattyIntegration._check_cowpatty`: any exit
counts as available (cowpatty exits nonzero without arguments); timeout and
missing binary are caught and reported as unavailable. -/
def check_cowpatty (outcome : RunOutcome) : Bool :=
  match outcome with
  | RunOutcome.exited _ => true
  | RunOutcome.timedOutRun => false
  | RunOutcome.fileNotFound => false

/-- The thirteen tool names probed by `AircrackSuite._check_tools_availability`. -/
def aircrackTools : List String :=
  [ "aircrack-ng", "airodump-ng", "aireplay-ng", "airmon-ng",
    "airbase-ng", "airdecap-ng", "airdecloak-ng", "airolib-ng",
    "airserv-ng", "buddy-ng", "easside-ng", "tkiptun-ng", "wesside-ng" ]

/-- Shallow embedding of `AircrackSuite._check_tools_availability`: probe
each tool with `--help`; available iff it exits with code 0, with timeout and
missing binary caught per tool.  `run` gives the outcome of each probe. -/
def check_tools_availability (run : String → RunOutcome) :
    List (String × Bool) :=
  aircrackTools.map (fun tool =>
    (tool,
      match run tool with
      | RunOutcome.exited code => code == 0
      | RunOutcome.timedOutRun => false
      | RunOutcome.fileNotFound => false))

/-! ## Process launch shapes (C8)

`KaliDependencyManager._run_command` (lines 135-152) passes a single string
with `shell=True`; the tool integrations pass argument vectors. -/

/-- How a command reaches `subprocess`: as an argument vector (no shell), or
as one shell-interpreted string (`shell=True`). -/
inductive LaunchKind
  | argvVector (argv : List String)
  | shellString (cmd : String)
  deriving DecidableEq, Repr

/-- Whether the launch hands a string to the shell. -/
def LaunchKind.isShell : LaunchKind → Bool
  | LaunchKind.argvVector _ => false
  | LaunchKind.shellString _ => true

/-- String literal `"sudo "` (the f-string prefix of line 138). -/
def sudoStr : String := "sudo "

/-- Shallow embedding of `KaliDependencyManager._run_command` lines 135-143:
the command string, prefixed with `sudo ` when requested and not already
root, is handed to `subprocess.run(command, shell=True, ...)`. -/
def kali_run_command_launch (command : String) (useSudo : Bool) (euid : Nat) :
    LaunchKind :=
  LaunchKind.shellString
    (if useSudo && euid != 0 then sudoStr ++ command else command)

/-- Launch performed by `CrunchIntegration.generate_wordlist` line 62:
`subprocess.Popen(cmd, ...)` on the built list. -/
def crunch_generate_launch (min_length max_length : Nat)
    (charset output_file : String) (pattern : Option String)
    (count : Option Nat) (duplicate invert literal permute : Bool) :
    LaunchKind :=
  LaunchKind.argvVector (crunch_generate_cmd min_length max_length charset
    output_file pattern count duplicate invert literal permute)

/-! ## Macchanger vendor spoofing (C10)

`MacchangerIntegration.set_mac_address` (lines 70-94) is declared with two
parameters besides `self`; `MacchangerIntegration.spoof_vendor_mac`
(lines 120-125) calls it with three positional arguments, which Python
rejects with a `TypeError` before the callee body runs. -/

/-- Number of parameters of `set_mac_address` besides `self`
(`interface`, `mac_address`). -/
def setMacAddressParamCount : Nat := 2

/-- Python call errors relevant here: the `TypeError` raised when a call
supplies a number of positional arguments different from the callee's
parameter count. -/
inductive PyCallError
  | typeErrorWrongArity (given expected : Nat)
  deriving DecidableEq, Repr

/-- Python's positional-call discipline for `set_mac_address`: the body (its
result abstracted as `bodyResult`) runs only when the argument count matches
the declared parameter count, otherwise a `TypeError` is raised. -/
def callSetMacAddress (args : List String) (bodyResult : Bool) :
    Except PyCallError Bool :=
  if args.length = setMacAddressParamCount then Except.ok bodyResult
  else Except.error
    (PyCallError.typeErrorWrongArity args.length setMacAddressParamCount)

/-- Shallow embedding of `MacchangerIntegration.spoof_vendor_mac` lines
120-125: generate a vendor mac (the random generation is abstracted by the
`vendor_mac` argument), then call
`self.set_mac_address(interface, interface, vendor_mac)` — three positional
arguments; on a truthy result return the mac, else `None`. -/
def spoof_vendor_mac (interface vendor_mac : String) (setResult : Bool) :
    Except PyCallError (Option String) :=
  match callSetMacAddress [interface, interface, vendor_mac] setResult with
  | Except.error e => Except.error e
  | Except.ok true => Except.ok (some vendor_mac)
  | Except.ok false => Except.ok none

/-- String literal `"vendor_"`. -/
def vendorSpoofIdBase : String := "vendor_"

/-- Shallow embedding of
`AdvancedMacSpoofingController.spoof_specific_vendor` (lines 292-309): after
a successful backup of the original MAC it calls `spoof_vendor_mac`; only a
truthy returned mac records an entry in `active_spoofs` and returns the
spoof id.  Exceptions propagate (there is no `try` here). -/
def spoof_specific_vendor (backupOk : Bool) (interface vendor_mac : String)
    (setResult : Bool) (active_spoofs : List String) (now : Nat) :
    Except PyCallError (Option String × List String) :=
  let spoof_id := vendorSpoofIdBase ++ interface ++ underscoreStr
    ++ decimalString now
  if backupOk then
    match spoof_vendor_mac interface vendor_mac setResult with
    | Except.error e => Except.error e
    | Except.ok (some _) =>
        Except.ok (some spoof_id, active_spoofs ++ [spoof_id])
    | Except.ok none => Except.ok (none, active_spoofs)
  else Except.ok (none, active_spoofs)

/-! ## Helper lemmas -/

theorem decDigitsFuel_eq_digits (fuel : Nat) :
    ∀ n : Nat, n ≤ fuel → decDigitsFuel fuel n = Nat.digits 10 n := by
  induction fuel with
  | zero =>
    intro n hn
    interval_cases n
    simp [decDigitsFuel]
  | succ fuel ih =>
    intro n hn
    by_cases h0 : n = 0
    · simp [decDigitsFuel, h0]
    · have hpos : 0 < n := Nat.pos_of_ne_zero h0
      have hdiv : n / 10 ≤ fuel := by
        have : n / 10 < n := Nat.div_lt_self hpos (by norm_num)
        omega
      rw [Nat.digits_def' (b := 10) (by norm_num) hpos]
      simp [decDigitsFuel, h0, ih _ hdiv]

theorem decDigits_eq_digits (n : Nat) : decDigits n = Nat.digits 10 n :=
  decDigitsFuel_eq_digits n n (Nat.le_refl n)

theorem charToDigit_digitChar (d : Nat) (hd : d < 10) :
    charToDigit (digitChar d) = d := by
  interval_cases d <;> rfl

theorem map_charToDigit_digitChar (l : List Nat) (hl : ∀ d ∈ l, d < 10) :
    (l.map digitChar).map charToDigit = l := by
  induction l with
  | nil => rfl
  | cons d l ih =>
    have hd : d < 10 := hl d (List.mem_cons_self d l)
    have hrest : ∀ x ∈ l, x < 10 := fun x hx => hl x (List.mem_cons_of_mem d hx)
    simp [charToDigit_digitChar d hd, ih hrest]

theorem digits_reverse_single_zero {k : Nat}
    (h : (Nat.digits 10 k).reverse = [0]) : k = 0 := by
  have hd : Nat.digits 10 k = [0] := by
    have := congrArg List.reverse h
    simpa using this
  have hk := Nat.ofDigits_digits 10 k
  rw [hd] at hk
  simpa [Nat.ofDigits] using hk.symm

theorem decimalString_injective : Function.Injective decimalString := by
  intro m n h
  unfold decimalString at h
  have key : ∀ k : Nat, k ≠ 0 →
      ((decDigits k).reverse.map digitChar).map charToDigit =
        (Nat.digits 10 k).reverse := by
    intro k _
    rw [decDigits_eq_digits]
    apply map_charToDigit_digitChar
    intro d hd
    exact Nat.digits_lt_base (by norm_num) (List.mem_reverse.mp hd)
  have zeroData : zeroStr = String.mk [digitChar 0] := rfl
  by_cases hm : m = 0 <;> by_cases hn : n = 0
  · omega
  · exfalso
    simp only [hm, if_pos rfl, if_neg hn, zeroData] at h
    have hdata : [digitChar 0] = (decDigits n).reverse.map digitChar :=
      congrArg String.data h
    have hmap := congrArg (List.map charToDigit) hdata
    rw [key n hn] at hmap
    simp only [List.map_cons, List.map_nil,
      charToDigit_digitChar 0 (by norm_num)] at hmap
    exact hn (digits_reverse_single_zero hmap.symm)
  · exfalso
    simp only [hn, if_pos rfl, if_neg hm, zeroData] at h
    have hdata : (decDigits m).reverse.map digitChar = [digitChar 0] :=
      congrArg String.data h
    have hmap := congrArg (List.map charToDigit) hdata
    rw [key m hm] at hmap
    simp only [List.map_cons, List.map_nil,
      charToDigit_digitChar 0 (by norm_num)] at hmap
    exact hm (digits_reverse_single_zero hmap)
  · simp only [if_neg hm, if_neg hn] at h
    have hdata : (decDigits m).reverse.map digitChar =
        (decDigits n).reverse.map digitChar := congrArg String.data h
    have := congrArg (List.map charToDigit) hdata
    rw [key m hm, key n hn] at this
    have := congrArg (Nat.ofDigits 10) (congrArg List.reverse this)
    simpa [Nat.ofDigits_digits] using this

theorem string_append_left_cancel {a b c : String}
    (h : a ++ b = a ++ c) : b = c := by
  have := congrArg String.data h
  simp only [String.data_append] at this
  exact String.ext (List.append_cancel_left this)

theorem foldl_add_eq_sum (f : Nat → Nat) (l : List Nat) (init : Nat) :
    l.foldl (fun total x => total + f x) init = init + (l.map f).sum := by
  induction l generalizing init with
  | nil => simp
  | cons x l ih => simp [ih]; omega

theorem range'_map_sum (f : Nat → Nat) (n : Nat) :
    ∀ a : Nat, ((List.range' a n).map f).sum = ∑ i ∈ Finset.range n, f (a + i) := by
  induction n with
  | zero => intro a; simp
  | succ n ih =>
    intro a
    rw [List.range'_succ, Finset.sum_range_succ' (fun i => f (a + i)) n]
    simp only [List.map_cons, List.sum_cons, ih (a + 1), Nat.add_zero]
    have hidx : ∀ i : Nat, a + 1 + i = a + (i + 1) := by omega
    simp only [hidx]
    exact Nat.add_comm _ _

/-! ## Registry lemmas -/

theorem JobRegistry.find_update (reg : JobRegistry) (id : String)
    (f : JobInfo → JobInfo) :
    (JobRegistry.update reg id f).find id = (reg.find id).map f := by
  induction reg with
  | nil => rfl
  | cons p rest ih =>
    by_cases h : p.1 == id
    · simp [JobRegistry.update, JobRegistry.find, h]
    · simp only [JobRegistry.update, JobRegistry.find, List.map_cons,
        if_neg h] at ih ⊢
      exact ih

/-! ## Claim theorems -/

/-- C9 (confirmed): `estimate_wordlist_size min max cs` returns exactly
`∑ l ∈ [min..max], cs ^ l`, computed in exact (arbitrary-precision) natural
arithmetic — the embedding is a pure function of its three arguments, so no
state is mutated — and the result is `0` when `min > max` (the Python
`range` is empty). -/
theorem estimate_wordlist_size_eq_sum :
    (∀ min_length max_length charset_size : Nat,
      estimate_wordlist_size min_length max_length charset_size =
        ∑ l ∈ Finset.Icc min_length max_length, charset_size ^ l)
    ∧ (∀ min_length max_length charset_size : Nat,
        max_length < min_length →
        estimate_wordlist_size min_length max_length charset_size = 0) := by
  have main : ∀ mn mx cs : Nat,
      estimate_wordlist_size mn mx cs = ∑ l ∈ Finset.Icc mn mx, cs ^ l := by
    intro mn mx cs
    unfold estimate_wordlist_size
    rw [foldl_add_eq_sum (fun l => cs ^ l), range'_map_sum (fun l => cs ^ l),
      ← Nat.Ico_succ_right, Finset.sum_Ico_eq_sum_range]
    simp
  refine ⟨main, ?_⟩
  intro mn mx cs h
  rw [main, Finset.Icc_eq_empty (by omega)]
  simp

/-- Witness for C9: at `min = 5 > max = 2` the estimate is `0`. -/
theorem estimate_wordlist_size_witness :
    (2 : Nat) < 5 ∧ estimate_wordlist_size 5 2 7 = 0 :=
  ⟨by decide, estimate_wordlist_size_eq_sum.2 5 2 7 (by decide)⟩

/-- Two start calls at second 1000 with distinct callers. -/
def c1CallA : StartCall := { callerTag := 0, timestampSec := 1000 }

/-- Second concurrent start call at the same second. -/
def c1CallB : StartCall := { callerTag := 1, timestampSec := 1000 }

/-- C1 (corrected — counterexample): two distinct start calls issued within
the same clock second (both while `int(time.time())` reads 1000) receive the
identical generation id, so the id-generation step of
`start_smart_wordlist_generation` is not injective across concurrent
invocations. -/
theorem start_id_same_second_collision :
    c1CallA ≠ c1CallB ∧ c1CallA.crunchId = c1CallB.crunchId :=
  ⟨by decide, rfl⟩

/-- C1 (corrected — amended claim): the generated id is a function of the
whole-second timestamp alone (plus the ssid for cowpatty), so two start
calls collide exactly when they fall in the same clock second: calls in
distinct seconds get distinct ids (for crunch, and for cowpatty attacks on
the same ssid), while calls in the same second always get the same id. -/
theorem start_id_injective_only_across_seconds :
    (∀ c1 c2 : StartCall, c1.timestampSec ≠ c2.timestampSec →
      c1.crunchId ≠ c2.crunchId)
    ∧ (∀ (ssid : String) (t1 t2 : Nat), t1 ≠ t2 →
        cowpattyAttackId ssid t1 ≠ cowpattyAttackId ssid t2)
    ∧ (∀ c1 c2 : StartCall, c1.timestampSec = c2.timestampSec →
        c1.crunchId = c2.crunchId) := by
  refine ⟨?_, ?_, ?_⟩
  · intro c1 c2 hne heq
    simp only [StartCall.crunchId, crunchGenerationId] at heq
    exact hne (decimalString_injective (string_append_left_cancel heq))
  · intro ssid t1 t2 hne heq
    simp only [cowpattyAttackId] at heq
    exact hne (decimalString_injective (string_append_left_cancel heq))
  · intro c1 c2 he
    show crunchGenerationId c1.timestampSec = crunchGenerationId c2.timestampSec
    rw [he]

/-- Witness for C1's amended theorem at calls in seconds 1 and 2. -/
theorem start_id_injective_witness :
    ({ callerTag := 0, timestampSec := 1 } : StartCall).timestampSec ≠
      ({ callerTag := 0, timestampSec := 2 } : StartCall).timestampSec
    ∧ ({ callerTag := 0, timestampSec := 1 } : StartCall).crunchId ≠
        ({ callerTag := 0, timestampSec := 2 } : StartCall).crunchId :=
  ⟨by decide, start_id_injective_only_across_seconds.1 _ _ (by decide)⟩

/-- C5 (confirmed): when the construction-time crunch probe is `False`,
`start_smart_wordlist_generation` raises (`RuntimeError` wrapping the
`Crunch not available` error from `generate_wordlist`, which checks
availability before building or spawning anything), no command is spawned,
and the registry is returned exactly as it was — in particular no entry with
the new generation id is inserted. -/
theorem start_unavailable_refused_atomically :
    ∀ (ssid : String) (reg : JobRegistry) (output_file : String) (now : Nat),
      start_smart_wordlist_generation false ssid reg output_file now =
        (Except.error (StartError.failedToStart CrunchError.crunchNotAvailable),
          reg, []) := by
  intro ssid reg output_file now
  unfold start_smart_wordlist_generation
  cases analyze_target ssid <;> simp [crunch_generate_wordlist]

/-- C6 (confirmed): with no owned process handle, `stop_generation` /
`stop_attack` send no signal and return plain `False` — an ordinary return,
not an exception (the embedding is a total function; the Python code's only
raise sites are inside its own `try`).  With a live handle they send
`terminate`, then return `True` whether the process exits in the 5-second
grace window or has to be `kill`ed after it. -/
theorem stop_escalation_and_noop :
    (crunch_stop_generation_proc none = (false, [])
      ∧ wifite_stop_attack_proc none = (false, []))
    ∧ (∀ b : ProcBehavior,
        (crunch_stop_generation_proc (some b)).1 = true
        ∧ (crunch_stop_generation_proc (some b)).2 =
            StopSignal.terminateSig ::
              (if b = ProcBehavior.ignoresTerminate
               then [StopSignal.killSig] else [])
        ∧ (wifite_stop_attack_proc (some b)).1 = true
        ∧ (wifite_stop_attack_proc (some b)).2 =
            StopSignal.terminateSig ::
              (if b = ProcBehavior.ignoresTerminate
               then [StopSignal.killSig] else [])) := by
  refine ⟨⟨rfl, rfl⟩, ?_⟩
  intro b
  cases b <;>
    simp [crunch_stop_generation_proc, wifite_stop_attack_proc]

/-- C7 (confirmed): every probe is a total boolean function of the
invocation outcome — no exception escapes the embedded `try/except` — and
both the timeout outcome and the missing-executable outcome yield `false`
(unavailable), for each of `_check_crunch`, `_check_cowpatty` and every tool
probed by `_check_tools_availability`. -/
theorem probe_total_and_unavailable_on_failure :
    (∀ code : Int, check_crunch (RunOutcome.exited code) = (code == 0))
    ∧ check_crunch RunOutcome.timedOutRun = false
    ∧ check_crunch RunOutcome.fileNotFound = false
    ∧ (∀ code : Int, check_cowpatty (RunOutcome.exited code) = true)
    ∧ check_cowpatty RunOutcome.timedOutRun = false
    ∧ check_cowpatty RunOutcome.fileNotFound = false
    ∧ (∀ run : String → RunOutcome, ∀ p ∈ check_tools_availability run,
        (run p.1 = RunOutcome.timedOutRun → p.2 = false)
        ∧ (run p.1 = RunOutcome.fileNotFound → p.2 = false)
        ∧ (∀ code : Int, run p.1 = RunOutcome.exited code → p.2 = (code == 0))) := by
  refine ⟨fun _ => rfl, rfl, rfl, fun _ => rfl, rfl, rfl, ?_⟩
  intro run p hp
  simp only [check_tools_availability, List.mem_map] at hp
  obtain ⟨tool, -, rfl⟩ := hp
  refine ⟨?_, ?_, ?_⟩
  · intro h
    simp [h]
  · intro h
    simp [h]
  · intro code h
    simp [h]

/-- Probe outcome function where every invocation times out. -/
def c7run : String → RunOutcome := fun _ => RunOutcome.timedOutRun

/-- The aircrack availability entry for the first tool under `c7run`. -/
def c7pair : String × Bool := (aircrackTools.getD 0 zeroStr, false)

/-- Witness for C7 at the all-timeouts outcome: the first aircrack tool is
reported unavailable. -/
theorem probe_unavailable_witness :
    c7pair ∈ check_tools_availability c7run
    ∧ c7run c7pair.1 = RunOutcome.timedOutRun
    ∧ c7pair.2 = false :=
  ⟨by decide, rfl,
    (probe_total_and_unavailable_on_failure.2.2.2.2.2.2 c7run c7pair
      (by decide)).1 rfl⟩

/-- A dependency-manager command string containing shell metacharacters. -/
def c8cmd : String := "apt update && apt upgrade"

/-- C8 (corrected — counterexample): `KaliDependencyManager._run_command`
hands its command — here one containing shell metacharacters — to
`subprocess.run(..., shell=True)` as a single shell-interpreted string, so
it is not true that no launch path invokes the shell on a joined command
string. -/
theorem shell_launch_counterexample :
    kali_run_command_launch c8cmd false 1000 = LaunchKind.shellString c8cmd
    ∧ (kali_run_command_launch c8cmd false 1000).isShell = true :=
  ⟨rfl, rfl⟩

/-- C8 (corrected — amended claim): the tool integrations do pass argument
vectors — `CrunchIntegration.generate_wordlist` always launches an argv
vector, never a shell string — but `KaliDependencyManager._run_command`
always launches a single shell-interpreted string (prefixed with `sudo `
when requested as non-root). -/
theorem launch_vector_vs_shell :
    (∀ (min_length max_length : Nat) (charset output_file : String)
        (pattern : Option String) (count : Option Nat)
        (duplicate invert literal permute : Bool),
      (crunch_generate_launch min_length max_length charset output_file
        pattern count duplicate invert literal permute).isShell = false)
    ∧ (∀ (command : String) (useSudo : Bool) (euid : Nat),
        (kali_run_command_launch command useSudo euid).isShell = true) :=
  ⟨fun _ _ _ _ _ _ _ _ _ _ => rfl, fun _ _ _ => rfl⟩

/-- C10 (confirmed): `spoof_vendor_mac` always raises `TypeError` — it
passes three positional arguments (`interface`, `interface`, `vendor_mac`)
to the two-parameter `set_mac_address` — and never returns a value, for
every interface, generated mac and would-be body result; consequently
`spoof_specific_vendor` either propagates that `TypeError` (when the backup
succeeds) or returns `None` (when it fails), and in no case records an
active vendor spoof. -/
theorem spoof_vendor_mac_always_type_error :
    ∀ (interface vendor_mac : String) (setResult : Bool)
      (backupOk : Bool) (active_spoofs : List String) (now : Nat),
      spoof_vendor_mac interface vendor_mac setResult =
        Except.error (PyCallError.typeErrorWrongArity 3 2)
      ∧ spoof_specific_vendor backupOk interface vendor_mac setResult
          active_spoofs now =
          (if backupOk
           then Except.error (PyCallError.typeErrorWrongArity 3 2)
           else Except.ok (none, active_spoofs)) := by
  intro interface vendor_mac setResult backupOk active_spoofs now
  have h : spoof_vendor_mac interface vendor_mac setResult =
      Except.error (PyCallError.typeErrorWrongArity 3 2) := by
    simp [spoof_vendor_mac, callSetMacAddress, setMacAddressParamCount]
  refine ⟨h, ?_⟩
  cases backupOk <;> simp [spoof_specific_vendor, h]

/-- Sample generation id for the C2 scenario. -/
def c2gid : String := "gen_a"

/-- Registry holding one running generation. -/
def c2reg : JobRegistry :=
  [(c2gid,
    { status := some JobStatus.running, progress := none,
      lastUpdate := none, startTime := some 0 })]

/-- C2 (corrected — counterexample): a successful stop marks the job
`'stopped'` (a terminal status); the monitor loop's completion callback then
fires and `_handle_progress` overwrites the terminal `'stopped'` with
`'completed'` — the very backward transition the claim rules out. -/
theorem stopped_job_set_completed_counterexample :
    (((crunch_stop_generation_ctl c2reg c2gid true).1.find c2gid).map
      JobInfo.status = some (some JobStatus.stopped))
    ∧ (((crunch_handle_progress (crunch_stop_generation_ctl c2reg c2gid true).1
        c2gid CrunchCbInfo.completedStatus 20).find c2gid).map JobInfo.status =
          some (some JobStatus.completed)) := by
  refine ⟨?_, ?_⟩ <;> decide

/-- C2 (corrected — amended claim): terminal statuses are not final in the
crunch controller.  `_handle_progress` applies a completion event by setting
`status` to `'completed'` whatever the prior status (in particular a
`'stopped'` job is set to `'completed'` when the monitor callback fires),
while a progress event updates only `progress` and `last_update`, leaving
the status unchanged; a successful `stop_generation` sets `'stopped'`
whatever the prior status. -/
theorem crunch_status_not_final :
    (∀ (reg : JobRegistry) (id : String) (now : Nat) (info : JobInfo),
      reg.find id = some info →
      (crunch_handle_progress reg id CrunchCbInfo.completedStatus now).find id =
        some { info with
                 lastUpdate := some now, status := some JobStatus.completed })
    ∧ (∀ (reg : JobRegistry) (id : String) (now p : Nat) (info : JobInfo),
        reg.find id = some info →
        (crunch_handle_progress reg id (CrunchCbInfo.progressEvent p) now).find
          id = some { info with
                        lastUpdate := some now, progress := some p })
    ∧ (∀ (reg : JobRegistry) (id : String) (info : JobInfo),
        reg.find id = some info →
        (crunch_stop_generation_ctl reg id true).1.find id =
          some { info with status := some JobStatus.stopped }
        ∧ (crunch_stop_generation_ctl reg id true).2 = true) := by
  have hcontains : ∀ (reg : JobRegistry) (id : String) (info : JobInfo),
      reg.find id = some info → reg.contains id = true := by
    intro reg id info h
    simp [JobRegistry.contains, h]
  refine ⟨?_, ?_, ?_⟩
  · intro reg id now info hfind
    simp [crunch_handle_progress, hcontains reg id info hfind,
      JobRegistry.find_update, hfind]
  · intro reg id now p info hfind
    simp [crunch_handle_progress, hcontains reg id info hfind,
      JobRegistry.find_update, hfind]
  · intro reg id info hfind
    simp [crunch_stop_generation_ctl, hcontains reg id info hfind,
      JobRegistry.find_update, hfind]

/-- Witness for C2's amended theorem on the concrete one-job registry. -/
theorem crunch_status_not_final_witness :
    c2reg.find c2gid =
      some { status := some JobStatus.running, progress := none,
             lastUpdate := none, startTime := some 0 }
    ∧ (crunch_handle_progress c2reg c2gid CrunchCbInfo.completedStatus 20).find
        c2gid =
        some { status := some JobStatus.completed, progress := none,
               lastUpdate := some 20, startTime := some 0 } :=
  ⟨by decide,
    crunch_status_not_final.1 c2reg c2gid 20
      { status := some JobStatus.running, progress := none,
        lastUpdate := none, startTime := some 0 } (by decide)⟩

/-- Sample id for the C4 scenarios. -/
def c4gid : String := "gen_b"

/-- Registry with one job marked `failed` at time 0. -/
def c4regFailed : JobRegistry :=
  [(c4gid,
    { status := some JobStatus.failed, progress := none,
      lastUpdate := some 0, startTime := some 0 })]

/-- Registry with one `completed` job that has no recorded `last_update`. -/
def c4regNoUpdate : JobRegistry :=
  [(c4gid,
    { status := some JobStatus.completed, progress := none,
      lastUpdate := none, startTime := some 0 })]

/-- C4 (corrected — counterexample): a job marked `failed` at t = 0 is still
present at t = 301 under every one of the three sweeps — `failed` is not in
the removable status list of `cleanup_generations` or
`cleanup_completed_attacks`, and `cleanup_attacks` uses a 600-second window —
contradicting the claim's own example; and a `completed` job with no recorded
last-update is removed at t = 301 (its `last_update` defaults to 0),
contradicting the claim that such a job is not removed. -/
theorem cleanup_sweep_counterexample :
    crunch_cleanup_generations c4regFailed 301 = c4regFailed
    ∧ cowpatty_cleanup_attacks c4regFailed 301 = c4regFailed
    ∧ wifite_cleanup_completed_attacks c4regFailed 301 = c4regFailed
    ∧ crunch_cleanup_generations c4regNoUpdate 301 = [] := by
  refine ⟨?_, ?_, ?_, ?_⟩ <;> decide

/-- C4 (corrected — amended claim): each sweep removes an entry iff its
status is in that sweep's hard-coded removable list and the current time
minus its last-update (defaulting to 0 when absent) exceeds that sweep's
window: `{completed, stopped}` with 300 s for `cleanup_generations` and
`cleanup_completed_attacks`, `{completed, stopped, failed}` with 600 s for
`cleanup_attacks`.  Every other entry — non-removable status (including
`failed` for crunch/wifite and `timed_out` everywhere) or within the window —
is left untouched; an entry with no recorded last-update is treated as last
updated at time 0. -/
theorem cleanup_sweep_removes_iff :
    ∀ (reg : JobRegistry) (now : Nat) (entry : String × JobInfo),
      (entry ∈ crunch_cleanup_generations reg now ↔
        entry ∈ reg ∧
          ¬((entry.2.status = some JobStatus.completed
              ∨ entry.2.status = some JobStatus.stopped)
            ∧ 300 < now - entry.2.lastUpdate.getD 0))
      ∧ (entry ∈ cowpatty_cleanup_attacks reg now ↔
          entry ∈ reg ∧
            ¬((entry.2.status = some JobStatus.completed
                ∨ entry.2.status = some JobStatus.stopped
                ∨ entry.2.status = some JobStatus.failed)
              ∧ 600 < now - entry.2.lastUpdate.getD 0))
      ∧ (entry ∈ wifite_cleanup_completed_attacks reg now ↔
          entry ∈ reg ∧
            ¬((entry.2.status = some JobStatus.completed
                ∨ entry.2.status = some JobStatus.stopped)
              ∧ 300 < now - entry.2.lastUpdate.getD 0)) := by
  intro reg now entry
  refine ⟨?_, ?_, ?_⟩ <;>
    · simp [crunch_cleanup_generations, cowpatty_cleanup_attacks,
        wifite_cleanup_completed_attacks, List.mem_filter, not_or,
        Decidable.not_and_iff_or_not, or_assoc]
      intro _
      tauto

/-- C3 (confirmed): each parser tries its pattern matchers in the fixed
source order; the first matcher whose search succeeds determines the single
returned event, a line matched by no pattern returns `None` (the parsers are
total functions — no error is raised), and mapping the parser over a line
sequence (the monitor loop) yields exactly the events of the matching lines
in line order, with non-matching lines contributing nothing. -/
theorem parse_progress_first_match :
    (∀ line gs, reSearch cowKeyPat line = some gs →
      cowpattyParseProgress line =
        some (CowEvent.keyFound (digitsToNat (group1 gs))))
    ∧ (∀ line gs, reSearch cowKeyPat line = none →
        reSearch pctPat line = some gs →
        cowpattyParseProgress line =
          some (CowEvent.progress (digitsToNat (group1 gs))))
    ∧ (∀ line gs, reSearch cowKeyPat line = none →
        reSearch pctPat line = none →
        reSearch cowTestedPat line = some gs →
        cowpattyParseProgress line =
          some (CowEvent.passphrasesTested (digitsToNat (group1 gs))))
    ∧ (∀ line, reSearch cowKeyPat line = none →
        reSearch pctPat line = none →
        reSearch cowTestedPat line = none →
        cowpattyParseProgress line = none)
    ∧ (∀ l ls, cowpattyEvents (l :: ls) =
        (cowpattyParseProgress l).toList ++ cowpattyEvents ls)
    ∧ cowpattyEvents [] = []
    ∧ (∀ line gs, reSearch wifTargetPat line = some gs →
        wifiteParseProgress line =
          some (WifiteEvent.targetsFound (digitsToNat (group1 gs))))
    ∧ (∀ line gs, reSearch wifTargetPat line = none →
        reSearch wifAttackingPat line = some gs →
        wifiteParseProgress line =
          some (WifiteEvent.attacking (group1 gs) (digitsToNat (group2 gs))
            (group3 gs)))
    ∧ (∀ line gs, reSearch wifTargetPat line = none →
        reSearch wifAttackingPat line = none →
        reSearch wifWpsPinPat line = some gs →
        wifiteParseProgress line =
          some (WifiteEvent.keyFound ktWpsPin (group1 gs)))
    ∧ (∀ line gs, reSearch wifTargetPat line = none →
        reSearch wifAttackingPat line = none →
        reSearch wifWpsPinPat line = none →
        reSearch wifWpaKeyPat line = some gs →
        wifiteParseProgress line =
          some (WifiteEvent.keyFound ktWpaKey (group1 gs)))
    ∧ (∀ line gs, reSearch wifTargetPat line = none →
        reSearch wifAttackingPat line = none →
        reSearch wifWpsPinPat line = none →
        reSearch wifWpaKeyPat line = none →
        reSearch wifWepKeyPat line = some gs →
        wifiteParseProgress line =
          some (WifiteEvent.keyFound ktWepKey (group1 gs)))
    ∧ (∀ line gs, reSearch wifTargetPat line = none →
        reSearch wifAttackingPat line = none →
        reSearch wifWpsPinPat line = none →
        reSearch wifWpaKeyPat line = none →
        reSearch wifWepKeyPat line = none →
        reSearch wifProgressPat line = some gs →
        wifiteParseProgress line =
          some (WifiteEvent.progress (digitsToNat (group1 gs))))
    ∧ (∀ line gs, reSearch wifTargetPat line = none →
        reSearch wifAttackingPat line = none →
        reSearch wifWpsPinPat line = none →
        reSearch wifWpaKeyPat line = none →
        reSearch wifWepKeyPat line = none →
        reSearch wifProgressPat line = none →
        reSearch wifAttemptsPat line = some gs →
        wifiteParseProgress line =
          some (WifiteEvent.attempts (digitsToNat (group1 gs))))
    ∧ (∀ line, reSearch wifTargetPat line = none →
        reSearch wifAttackingPat line = none →
        reSearch wifWpsPinPat line = none →
        reSearch wifWpaKeyPat line = none →
        reSearch wifWepKeyPat line = none →
        reSearch wifProgressPat line = none →
        reSearch wifAttemptsPat line = none →
        wifiteParseProgress line = none)
    ∧ (∀ l ls, wifiteEvents (l :: ls) =
        (wifiteParseProgress l).toList ++ wifiteEvents ls)
    ∧ wifiteEvents [] = [] := by
  refine ⟨?_, ?_, ?_, ?_, ?_, rfl, ?_, ?_, ?_, ?_, ?_, ?_, ?_, ?_, ?_, rfl⟩
  · intro line gs h1
    simp [cowpattyParseProgress, h1]
  · intro line gs h1 h2
    simp [cowpattyParseProgress, h1, h2]
  · intro line gs h1 h2 h3
    simp [cowpattyParseProgress, h1, h2, h3]
  · intro line h1 h2 h3
    simp [cowpattyParseProgress, h1, h2, h3]
  · intro l ls
    cases h : cowpattyParseProgress l <;>
      simp [cowpattyEvents, List.filterMap_cons, h]
  · intro line gs h1
    simp [wifiteParseProgress, h1]
  · intro line gs h1 h2
    simp [wifiteParseProgress, h1, h2]
  · intro line gs h1 h2 h3
    simp [wifiteParseProgress, h1, h2, h3]
  · intro line gs h1 h2 h3 h4
    simp [wifiteParseProgress, h1, h2, h3, h4]
  · intro line gs h1 h2 h3 h4 h5
    simp [wifiteParseProgress, h1, h2, h3, h4, h5]
  · intro line gs h1 h2 h3 h4 h5 h6
    simp [wifiteParseProgress, h1, h2, h3, h4, h5, h6]
  · intro line gs h1 h2 h3 h4 h5 h6 h7
    simp [wifiteParseProgress, h1, h2, h3, h4, h5, h6, h7]
  · intro line h1 h2 h3 h4 h5 h6 h7
    simp [wifiteParseProgress, h1, h2, h3, h4, h5, h6, h7]
  · intro l ls
    cases h : wifiteParseProgress l <;>
      simp [wifiteEvents, List.filterMap_cons, h]

/-- Cowpatty output line announcing a found key. -/
def c3keyLine : String := "key found [ 7 ]"

/-- Tool output line matching none of the cowpatty patterns. -/
def c3noLine : String := "reading wordlist"

/-- String literal `"7"` (the captured group of `c3keyLine`). -/
def sevenStr : String := "7"

/-- Witness for C3 at two concrete lines: the key-found line produces the
key-found event through the first matcher, and the non-matching line
produces no event. -/
theorem parse_progress_witness :
    reSearch cowKeyPat c3keyLine = some [sevenStr]
    ∧ cowpattyParseProgress c3keyLine =
        some (CowEvent.keyFound (digitsToNat (group1 [sevenStr])))
    ∧ reSearch cowKeyPat c3noLine = none
    ∧ reSearch pctPat c3noLine = none
    ∧ reSearch cowTestedPat c3noLine = none
    ∧ cowpattyParseProgress c3noLine = none :=
  ⟨by decide,
    parse_progress_first_match.1 c3keyLine [sevenStr] (by decide),
    by decide, by decide, by decide,
    parse_progress_first_match.2.2.2.1 c3noLine (by decide) (by decide)
      (by decide)⟩
